import Mathlib

/-!
Shallow embedding of the trade-decision engine of the TradingBot repository
(TypeScript sources under `src/`), together with theorems checking the
natural-language specification against the code.

Numeric values are modelled as rationals (`ℚ`); where the JavaScript
semantics of `/` on `0` matters (division yielding `Infinity`/`NaN`), this is
made explicit either by a case split on the zero divisor or by the extended
number type `JsNum` below.  Asynchronous external calls (price providers,
the scoring model, the position repository) are modelled as explicit
outcome parameters (`Except`/`Option` values) supplied to the embedded
function, which is the standard shallow embedding of `await`ed fallible
calls.
-/

namespace TradingBot

/-- Result of a JavaScript floating-point operation that can overflow to an
infinity or produce `NaN`; finite values are kept exact as rationals. -/
inductive JsNum : Type where
  | num (q : ℚ)
  | posInf
  | negInf
  | nan
deriving DecidableEq, Repr

/-- JavaScript division `a / b` on finite inputs: division by zero yields a
signed infinity (or `NaN` for `0 / 0`); otherwise the exact quotient. -/
def jsDiv (a b : ℚ) : JsNum :=
  if b = 0 then
    if 0 < a then JsNum.posInf else if a < 0 then JsNum.negInf else JsNum.nan
  else JsNum.num (a / b)

/-- Price-feed source tag (`'jupiter' | 'pyth' | 'switchboard'` in
`evaluateTrade.ts`, plus `'birdeye'` used by the provider layer). -/
inductive Source : Type where
  | jupiter
  | pyth
  | switchboard
  | birdeye
deriving DecidableEq, Repr

/-- `PriceFeedData` from `src/lib/priceFeeds.ts` / `src/commands/evaluateTrade.ts`. -/
structure PriceFeedData : Type where
  price : ℚ
  source : Source
  timestamp : ℤ
  confidence : ℚ
deriving DecidableEq, Repr

/-- `MarketData` from `src/commands/evaluateTrade.ts`. -/
structure MarketData : Type where
  price : ℚ
  volume24h : ℚ
  liquidityUSD : ℚ
  priceChange24h : ℚ
deriving DecidableEq, Repr

/-! ## Risk scorer (`TradeEvaluator`, `src/commands/evaluateTrade.ts`) -/

/-- The six sub-metrics fed to `calculateOverallRisk`
(`Omit<RiskMetrics, 'overallRisk'>` in the source). -/
structure SubMetrics : Type where
  volatility : ℚ
  liquidityDepth : ℚ
  marketCap : ℚ
  priceFeedReliability : ℚ
  slippageEstimate : ℚ
  walletRisk : ℚ
deriving DecidableEq, Repr

/-- `RiskMetrics` from `src/commands/evaluateTrade.ts`. -/
structure RiskMetrics : Type where
  volatility : ℚ
  liquidityDepth : ℚ
  marketCap : ℚ
  priceFeedReliability : ℚ
  slippageEstimate : ℚ
  walletRisk : ℚ
  overallRisk : ℚ
deriving DecidableEq, Repr

/-- JavaScript `Math.min(1, 1 / x)`: for `x = 0` the quotient is `Infinity`
and the minimum is `1`; otherwise the exact `min 1 (1/x)`. -/
def jsMinOneInv (x : ℚ) : ℚ :=
  if x = 0 then 1 else min 1 (1 / x)

/-- `calculateOverallRisk` (`evaluateTrade.ts` lines 328-352): normalize the
six sub-metrics and return their weighted sum with weights
volatility 0.2, liquidityDepth 0.2, marketCap 0.1, priceFeedReliability 0.2,
slippageEstimate 0.2, walletRisk 0.1. -/
def calculateOverallRisk (m : SubMetrics) : ℚ :=
  let nVolatility := min 1 m.volatility
  let nLiquidityDepth := jsMinOneInv m.liquidityDepth
  let nMarketCap := jsMinOneInv (m.marketCap / 1000000)
  let nPriceFeedReliability := 1 - m.priceFeedReliability
  let nSlippageEstimate := m.slippageEstimate
  let nWalletRisk := m.walletRisk
  nVolatility * (2/10) + nLiquidityDepth * (2/10) + nMarketCap * (1/10) +
    nPriceFeedReliability * (2/10) + nSlippageEstimate * (2/10) + nWalletRisk * (1/10)

/-! ## Exit evaluator (`ExitEngine`, `src/commands/exitEngine.ts`) -/

/-- Which exit rule produced the decision; stands for the human-readable
`reason` string of `ExitSignal` ("Take profit triggered at X%",
"Stop loss triggered at X%", "Maximum holding time reached (X minutes)",
"No exit conditions met"). -/
inductive ExitReasonKind : Type where
  | takeProfit
  | stopLoss
  | maxHoldingTime
  | noExit
deriving DecidableEq, Repr

/-- `ExitSignal` from `src/commands/exitEngine.ts` (the `reason` string is
abstracted to its rule tag). -/
structure ExitSignal : Type where
  shouldExit : Bool
  reason : ExitReasonKind
  currentPnL : ℚ
deriving DecidableEq, Repr

/-- `TAKE_PROFIT_THRESHOLD = 0.15` (`exitEngine.ts`). -/
def TAKE_PROFIT_THRESHOLD : ℚ := 15/100

/-- `STOP_LOSS_THRESHOLD = -0.10` (`exitEngine.ts`). -/
def STOP_LOSS_THRESHOLD : ℚ := -(10/100)

/-- `MAX_HOLDING_TIME = 60 * 60 * 1000` milliseconds (`exitEngine.ts`). -/
def MAX_HOLDING_TIME : ℤ := 60 * 60 * 1000

/-- `checkExitConditions` (`exitEngine.ts` lines 34-84), given the position
data and a successfully fetched current price.  `amount` and `price` are the
position's size and entry price; `holdingTime` is `Date.now() -
trade.timestamp.getTime()`.  The source computes
`currentPnL = (currentValue - entryValue) / entryValue` with
`entryValue = amount * price`, then checks take-profit, stop-loss and the
holding-time cap in that fixed order. -/
def checkExitConditions (amount price currentPrice : ℚ) (holdingTime : ℤ) :
    ExitSignal :=
  let entryValue := amount * price
  let currentValue := amount * currentPrice
  let currentPnL := (currentValue - entryValue) / entryValue
  if TAKE_PROFIT_THRESHOLD ≤ currentPnL then
    { shouldExit := true, reason := ExitReasonKind.takeProfit, currentPnL := currentPnL }
  else if currentPnL ≤ STOP_LOSS_THRESHOLD then
    { shouldExit := true, reason := ExitReasonKind.stopLoss, currentPnL := currentPnL }
  else if MAX_HOLDING_TIME ≤ holdingTime then
    { shouldExit := true, reason := ExitReasonKind.maxHoldingTime, currentPnL := currentPnL }
  else
    { shouldExit := false, reason := ExitReasonKind.noExit, currentPnL := currentPnL }

/-! ## Signal generator (`TradeEvaluator.evaluateTrade`, `evaluateTrade.ts`) -/

/-- The configuration values consulted by `evaluateTrade`
(`config.getConfig().confidenceThreshold` / `.minLiquidityUSD`,
defaults `0.67` and `10000` in `ConfigManager.loadConfig`). -/
structure Config : Type where
  confidenceThreshold : ℚ
  minLiquidityUSD : ℚ
deriving DecidableEq, Repr

/-- The defaults from `ConfigManager.loadConfig`: `CONFIDENCE_THRESHOLD`
0.67 and `MIN_LIQUIDITY_USD` 10000. -/
def defaultConfig : Config :=
  { confidenceThreshold := 67/100, minLiquidityUSD := 10000 }

/-- `MAX_POSITION_SIZE = 1.0` SOL (`evaluateTrade.ts`). -/
def MAX_POSITION_SIZE : ℚ := 1

/-- `riskFreeRate = 0.02` inside `calculateSharpeRatio` (`evaluateTrade.ts`). -/
def riskFreeRate : ℚ := 2/100

/-- `calculatePositionSize` (`evaluateTrade.ts`): base the size on the
confidence score, damp by volatility and liquidity depth, and clamp into
`[0.1, MAX_POSITION_SIZE]`. -/
def calculatePositionSize (score : ℚ) (rm : RiskMetrics) : ℚ :=
  let size := MAX_POSITION_SIZE * score
  let size := size * (1 - rm.volatility)
  let size := size * min 1 (rm.liquidityDepth / 2)
  max (1/10) (min MAX_POSITION_SIZE size)

/-- `calculateExpectedReturn` (`evaluateTrade.ts`): `score * (1 - volatility) * 100`. -/
def calculateExpectedReturn (score : ℚ) (rm : RiskMetrics) : ℚ :=
  score * (1 - rm.volatility) * 100

/-- `calculateMaxDrawdown` (`evaluateTrade.ts`): `volatility * 200`. -/
def calculateMaxDrawdown (rm : RiskMetrics) : ℚ :=
  rm.volatility * 200

/-- `calculateSharpeRatio` (`evaluateTrade.ts` lines 399-406):
`(score - riskFreeRate) / riskMetrics.volatility`, with no guard on the
divisor, so a zero volatility yields a JavaScript infinity (or `NaN`). -/
def calculateSharpeRatio (score : ℚ) (rm : RiskMetrics) : JsNum :=
  jsDiv (score - riskFreeRate) rm.volatility

/-- The prediction metrics attached to an emitted signal. -/
structure PredictionMetrics : Type where
  expectedReturn : ℚ
  maxDrawdown : ℚ
  sharpeRatio : JsNum
deriving DecidableEq, Repr

/-- `TradeSignal` as built by `evaluateTrade` (token identity abstracted;
`action` is always `'BUY'` there and is omitted). -/
structure TradeSignal : Type where
  confidence : ℚ
  price : ℚ
  volume : ℚ
  score : ℚ
  suggestedSize : ℚ
  riskMetrics : RiskMetrics
  predictionMetrics : PredictionMetrics
deriving DecidableEq, Repr

/-- The decision core of `evaluateTrade` (`evaluateTrade.ts` lines 84-133)
once the market data, the model score, and the risk metrics have been
successfully obtained: emit a `TradeSignal` when
`score >= cfg.confidenceThreshold && marketData.liquidityUSD >=
cfg.minLiquidityUSD`, otherwise return `null`. -/
def evaluateTrade (cfg : Config) (score : ℚ) (md : MarketData)
    (rm : RiskMetrics) : Option TradeSignal :=
  if cfg.confidenceThreshold ≤ score ∧ cfg.minLiquidityUSD ≤ md.liquidityUSD then
    some
      { confidence := score
        price := md.price
        volume := md.volume24h
        score := score
        suggestedSize := calculatePositionSize score rm
        riskMetrics := rm
        predictionMetrics :=
          { expectedReturn := calculateExpectedReturn score rm
            maxDrawdown := calculateMaxDrawdown rm
            sharpeRatio := calculateSharpeRatio score rm } }
  else
    none

/-- The control flow of `evaluateTrade` (`evaluateTrade.ts` lines 84-133)
around the risk-metric step: after the market data and the model score are
obtained, `calculateRiskMetrics` is awaited *before* the threshold check,
and an error thrown there reaches the surrounding `catch`, which logs and
rethrows — so a risk-metric failure makes `evaluateTrade` raise instead of
returning `null`.  `rmOutcome` is the outcome of the risk-metric step; the
success value is the `TradeSignal | null` decision of `evaluateTrade`. -/
def evaluateTradeFull (cfg : Config) (score : ℚ) (md : MarketData)
    (rmOutcome : Except String RiskMetrics) :
    Except String (Option TradeSignal) :=
  match rmOutcome with
  | Except.error e => Except.error e
  | Except.ok rm => Except.ok (evaluateTrade cfg score md rm)

/-! ## Risk-metric pipeline (`TradeEvaluator.calculateRiskMetrics`,
`TradeEvaluator.getPriceFeedData`, `evaluateTrade.ts`) -/

/-- The token fields consulted by the risk pipeline (`TokenInfo` with the
mint identity kept as a string, `supply`, `decimals`, plus membership of
the mint in `KNOWN_SCAM_WALLETS`). -/
structure TokenData : Type where
  mint : String
  supply : ℚ
  decimals : ℕ
  isKnownScamWallet : Bool
deriving DecidableEq, Repr

/-- A quote delivered by `PythProvider.getCurrentPrice`
(`priceDataProvider`): price and confidence. -/
structure PythQuote : Type where
  price : ℚ
  confidence : ℚ
deriving DecidableEq, Repr

/-- `PRICE_CACHE_TTL = 60000` ms (`TradeEvaluator`, `evaluateTrade.ts`). -/
def PRICE_CACHE_TTL : ℤ := 60000

/-- The provider-fallback chain of `getPriceFeedData` after a cache miss. -/
def getPriceFeedDataFetch (now : ℤ) (mint : String)
    (jupiter : Except String ℚ) (pyth : Except String (Option PythQuote)) :
    Except String PriceFeedData :=
  match jupiter with
  | Except.ok p =>
    Except.ok { price := p, source := Source.jupiter, timestamp := now, confidence := 9/10 }
  | Except.error _ =>
    match pyth with
    | Except.ok (some q) =>
      Except.ok
        { price := q.price
          source := Source.pyth
          timestamp := now
          confidence := if q.confidence = 0 then 95/100 else q.confidence }
    | _ => Except.error ("All price feeds failed for mint: " ++ mint)

/-- `TradeEvaluator.getPriceFeedData` (`evaluateTrade.ts` lines 242-290).
`cached` is the evaluator's price-cache entry for the mint, `now` is
`Date.now()`; `jupiter` is the outcome of `getTokenPrice(mint)` and `pyth`
the outcome of `PythProvider.getCurrentPrice(mint)` (which resolves to
`undefined` when no feed mapping or no data exists).  A fresh cache entry is
returned as is; otherwise Jupiter is tried first (confidence 0.9), then
Pyth (confidence `pythData.confidence || 0.95`, the JavaScript `||`
replacing a zero); the Switchboard branch is an empty placeholder; when
everything fails the call throws `All price feeds failed for mint: ...`. -/
def getPriceFeedData (cached : Option PriceFeedData) (now : ℤ)
    (mint : String) (jupiter : Except String ℚ)
    (pyth : Except String (Option PythQuote)) : Except String PriceFeedData :=
  match cached with
  | some c =>
    if now - c.timestamp < PRICE_CACHE_TTL then Except.ok c
    else getPriceFeedDataFetch now mint jupiter pyth
  | none => getPriceFeedDataFetch now mint jupiter pyth

/-- `calculatePriceFeedReliability` (`evaluateTrade.ts`):
`sourceReliability[source] * confidence`, with a `|| 0.5` fallback for a
source absent from the table (only `'birdeye'` here). -/
def calculatePriceFeedReliability (pf : PriceFeedData) : ℚ :=
  let sourceReliability : ℚ :=
    match pf.source with
    | Source.jupiter => 9/10
    | Source.pyth => 95/100
    | Source.switchboard => 85/100
    | Source.birdeye => 1/2
  sourceReliability * pf.confidence

/-- `estimateSlippage` (`evaluateTrade.ts`): `Math.min(1, tradeSize /
liquidityDepth)`.  At `liquidityDepth = 0` the JavaScript quotient is
`Infinity` (the call site passes `tradeSize = MAX_POSITION_SIZE = 1 > 0`),
so the minimum is `1`. -/
def estimateSlippage (liquidityDepth tradeSize : ℚ) : ℚ :=
  if liquidityDepth = 0 then 1 else min 1 (tradeSize / liquidityDepth)

/-- `calculateWalletRisk` (`evaluateTrade.ts`): `1.0` when the mint is in
`KNOWN_SCAM_WALLETS`, else `0.1`. -/
def calculateWalletRisk (token : TokenData) : ℚ :=
  if token.isKnownScamWallet then 1 else 1/10

/-- `TradeEvaluator.calculateRiskMetrics` (`evaluateTrade.ts` lines
174-237).  Computes the sub-metrics from the market data and the price-feed
data and combines them via `calculateOverallRisk`; an error from
`getPriceFeedData` is rethrown (the `catch` block logs and rethrows). -/
def calculateRiskMetrics (token : TokenData) (md : MarketData)
    (cached : Option PriceFeedData) (now : ℤ) (jupiter : Except String ℚ)
    (pyth : Except String (Option PythQuote)) : Except String RiskMetrics :=
  match getPriceFeedData cached now token.mint jupiter pyth with
  | Except.error e => Except.error e
  | Except.ok priceFeedData =>
    let volatility := |md.priceChange24h| / 100
    let liquidityDepth :=
      md.liquidityUSD / (if md.volume24h = 0 then 1 else md.volume24h)
    let marketCap := md.price * (token.supply / (10 : ℚ) ^ token.decimals)
    let priceFeedReliability := calculatePriceFeedReliability priceFeedData
    let slippageEstimate := estimateSlippage liquidityDepth MAX_POSITION_SIZE
    let walletRisk := calculateWalletRisk token
    let overallRisk := calculateOverallRisk
      { volatility := volatility
        liquidityDepth := liquidityDepth
        marketCap := marketCap
        priceFeedReliability := priceFeedReliability
        slippageEstimate := slippageEstimate
        walletRisk := walletRisk }
    Except.ok
      { volatility := volatility
        liquidityDepth := liquidityDepth
        marketCap := marketCap
        priceFeedReliability := priceFeedReliability
        slippageEstimate := slippageEstimate
        walletRisk := walletRisk
        overallRisk := overallRisk }

/-! ## Batch exit pass (`ExitEngine.checkAndExecuteExits`, `exitEngine.ts`) -/

/-- A persisted open trade, as consumed by the batch exit pass (only the
identity matters for the control-flow model; prices and amounts are folded
into the per-trade evaluation outcome). -/
structure Trade : Type where
  id : String
deriving DecidableEq, Repr

/-- The loop body of `checkAndExecuteExits` (`exitEngine.ts` lines
124-130): for each open trade, `await checkExitConditions(trade)` (whose
thrown error propagates out of the loop, aborting it), and when the signal
says to exit, `await executeExit(trade, signal)`.  `executeExit` catches its
own errors and resolves to `false`, so it never throws.  `evalOutcome` is
the outcome of `checkExitConditions` for a trade and `execOutcome` the
boolean result of `executeExit`; the returned list records, per exited
trade, the `executeExit` result. -/
def processTrades (evalOutcome : Trade → Except String ExitSignal)
    (execOutcome : Trade → Bool) :
    List Trade → Except String (List (String × Bool))
  | [] => Except.ok []
  | t :: rest =>
    match evalOutcome t with
    | Except.error e => Except.error e
    | Except.ok sig =>
      match processTrades evalOutcome execOutcome rest with
      | Except.error e => Except.error e
      | Except.ok tail =>
        if sig.shouldExit then Except.ok ((t.id, execOutcome t) :: tail)
        else Except.ok tail

/-- `ExitEngine.checkAndExecuteExits` (`exitEngine.ts` lines 120-137):
fetch the open trades from the repository (`getOpenTrades`), whose failure
propagates, then run the per-trade loop; any throw inside the `try` block is
logged and rethrown by the `catch`. -/
def checkAndExecuteExits (fetch : Except String (List Trade))
    (evalOutcome : Trade → Except String ExitSignal)
    (execOutcome : Trade → Bool) : Except String (List (String × Bool)) :=
  match fetch with
  | Except.error e => Except.error e
  | Except.ok openTrades => processTrades evalOutcome execOutcome openTrades

/-! ## Provider aggregation (`ProviderManager.getCurrentPrice`,
`src/lib/priceDataProvider` section of `priceFeeds.ts`) -/

/-- `ProviderManager.getCurrentPrice` (`priceFeeds.ts` lines 286-298):
iterate the configured providers in order; a thrown error or an `undefined`
result moves on to the next provider; the first response that is present
(and whose `price` field is a number, which every well-typed
`PriceFeedData` satisfies) is returned as is.  When every provider is
exhausted the result is `undefined`.  `outcomes` is the list of per-provider
call outcomes in provider order. -/
def getCurrentPrice :
    List (Except String (Option PriceFeedData)) → Option PriceFeedData
  | [] => none
  | outcome :: rest =>
    match outcome with
    | Except.ok (some q) => some q
    | Except.ok none => getCurrentPrice rest
    | Except.error _ => getCurrentPrice rest

/-! ## Price cache (`PriceFeedManager.getPriceData`, `priceFeeds.ts`, and
`TTLCache`, `src/lib/cache.ts`) -/

/-- A quote delivered by `PriceFeedManager.getPythPriceHttp`: the price and
the `confidence_interval` of the Pyth HTTP response. -/
structure PythHttpQuote : Type where
  price : ℚ
  confidence : ℚ
deriving DecidableEq, Repr

/-- The provider chain of `PriceFeedManager.getPriceData` after a cache
miss (`priceFeeds.ts` lines 43-77): Jupiter first (confidence 0.9), then
the Pyth HTTP fallback; both failing rethrows the Pyth error. -/
def getPriceDataFetch (now : ℤ) (jupiter : Except String ℚ)
    (pyth : Except String PythHttpQuote) : Except String PriceFeedData :=
  match jupiter with
  | Except.ok p =>
    Except.ok { price := p, source := Source.jupiter, timestamp := now, confidence := 9/10 }
  | Except.error _ =>
    match pyth with
    | Except.ok q =>
      Except.ok { price := q.price, source := Source.pyth, timestamp := now, confidence := q.confidence }
    | Except.error e => Except.error e

/-- `PriceFeedManager.getPriceData` (`priceFeeds.ts` lines 38-78), with the
`priceCache` map modelled as a function from mint to optional entry.  The
result triple is (returned or thrown value, cache afterwards, number of
provider attempt chains triggered): a fresh cache entry (age strictly below
`PRICE_CACHE_TTL = 60000` ms) is returned with no provider call; otherwise
the provider chain runs exactly once and a successful quote is written back
to the cache. -/
def getPriceData (cache : String → Option PriceFeedData) (mint : String)
    (now : ℤ) (jupiter : Except String ℚ)
    (pyth : Except String PythHttpQuote) :
    Except String PriceFeedData × (String → Option PriceFeedData) × ℕ :=
  match cache mint with
  | some cached =>
    if now - cached.timestamp < PRICE_CACHE_TTL then
      (Except.ok cached, cache, 0)
    else
      match getPriceDataFetch now jupiter pyth with
      | Except.ok d => (Except.ok d, fun k => if k = mint then some d else cache k, 1)
      | Except.error e => (Except.error e, cache, 1)
  | none =>
    match getPriceDataFetch now jupiter pyth with
    | Except.ok d => (Except.ok d, fun k => if k = mint then some d else cache k, 1)
    | Except.error e => (Except.error e, cache, 1)

/-- A `TTLCache` entry (`src/lib/cache.ts`): value and insertion timestamp. -/
structure CacheEntry (V : Type) : Type where
  value : V
  timestamp : ℤ

/-- `TTLCache.get` (`cache.ts` lines 18-26), with the backing `Map`
modelled as a function from key to optional entry: a missing key returns
`undefined`; an entry whose age strictly exceeds `ttl` is deleted from the
map and `undefined` is returned (lazy invalidation on read — `set`,
`delete` and `clear` are the only other mutators, and no background sweep
exists); otherwise the stored value is returned with the map unchanged. -/
def TTLCache.get {K V : Type} [DecidableEq K]
    (entries : K → Option (CacheEntry V)) (ttl : ℤ) (now : ℤ) (key : K) :
    Option V × (K → Option (CacheEntry V)) :=
  match entries key with
  | none => (none, entries)
  | some entry =>
    if ttl < now - entry.timestamp then
      (none, fun k => if k = key then none else entries k)
    else
      (some entry.value, entries)

/-! ## Circuit breaker (`CircuitBreaker`, `src/lib/birdeye.ts` lines
102-164) -/

/-- A per-key failure record (`{ count, lastFailure }`). -/
structure FailureRec : Type where
  count : ℕ
  lastFailure : ℤ
deriving DecidableEq, Repr

/-- The `failures` map of the breaker, keyed by operation key. -/
def CBState : Type := String → Option FailureRec

/-- `failureThreshold` default `5`. -/
def failureThreshold : ℕ := 5

/-- `resetTimeoutMs` default `60000` (1 minute). -/
def resetTimeoutMs : ℤ := 60000

/-- `CircuitBreaker.reset`: delete the key's failure record. -/
def CBState.reset (st : CBState) (key : String) : CBState :=
  fun k => if k = key then none else st k

/-- `CircuitBreaker.recordFailure`: increment the key's count (from `0` for
a missing record) and stamp the failure time. -/
def CBState.recordFailure (st : CBState) (key : String) (now : ℤ) : CBState :=
  let failure := (st key).getD { count := 0, lastFailure := 0 }
  fun k => if k = key then some { count := failure.count + 1, lastFailure := now } else st k

/-- `CircuitBreaker.isOpen` (`birdeye.ts`): open when the key has at least
`failureThreshold` failures and the last failure is more recent than
`resetTimeoutMs`; when the cool-down has elapsed the record is reset as a
side effect and the breaker reports closed.  Returns the flag and the state
afterwards. -/
def CircuitBreaker.isOpen (st : CBState) (key : String) (now : ℤ) :
    Bool × CBState :=
  match st key with
  | none => (false, st)
  | some failure =>
    if failureThreshold ≤ failure.count then
      if now - failure.lastFailure < resetTimeoutMs then (true, st)
      else (false, st.reset key)
    else (false, st)

/-- Outcome of `CircuitBreaker.execute`: the operation's value, the
operation's own error (rethrown), or the `Circuit breaker is open` error
thrown without running the operation. -/
inductive CBOutcome (α : Type) : Type where
  | success (a : α)
  | opError (e : String)
  | circuitOpen (key : String)
deriving DecidableEq, Repr

/-- `CircuitBreaker.execute` (`birdeye.ts` lines 123-137): throw if the
breaker is open for the key; otherwise run the operation — on success reset
the key's record and return the value, on failure record the failure and
rethrow.  `opOutcome` is the wrapped operation's outcome; the result triple
is (outcome, state afterwards, whether the operation was invoked). -/
def CircuitBreaker.execute {α : Type} (st : CBState) (key : String)
    (now : ℤ) (opOutcome : Except String α) : CBOutcome α × CBState × Bool :=
  match CircuitBreaker.isOpen st key now with
  | (true, st1) => (CBOutcome.circuitOpen key, st1, false)
  | (false, st1) =>
    match opOutcome with
    | Except.ok a => (CBOutcome.success a, st1.reset key, true)
    | Except.error e => (CBOutcome.opError e, st1.recordFailure key now, true)

/-! ## Theorems -/

/-- `jsMinOneInv` stays in `[0,1]` on non-negative inputs. -/
theorem jsMinOneInv_mem (x : ℚ) (hx : 0 ≤ x) :
    0 ≤ jsMinOneInv x ∧ jsMinOneInv x ≤ 1 := by
  unfold jsMinOneInv
  split_ifs with h
  · exact ⟨zero_le_one, le_rfl⟩
  · have hxpos : 0 < x := lt_of_le_of_ne hx (Ne.symm h)
    constructor
    · exact le_min zero_le_one (le_of_lt (by positivity))
    · exact min_le_left 1 (1 / x)

/-- C1 counterexample: with the finite, non-negative sub-metric inputs
volatility 0, liquidityDepth 1, marketCap 1000000, priceFeedReliability 0,
slippageEstimate 10, walletRisk 0, `calculateOverallRisk` returns 2.5,
outside `[0,1]` — the `slippageEstimate` and `walletRisk` terms enter the
weighted sum unclamped, so the claimed bound fails as stated. -/
theorem C1_counterexample :
    (0 : ℚ) ≤ 0 ∧ (0 : ℚ) ≤ 1 ∧ (0 : ℚ) ≤ 1000000 ∧ (0 : ℚ) ≤ 0 ∧
      (0 : ℚ) ≤ 10 ∧ (0 : ℚ) ≤ 0 ∧
      ¬ calculateOverallRisk
          { volatility := 0, liquidityDepth := 1, marketCap := 1000000,
            priceFeedReliability := 0, slippageEstimate := 10, walletRisk := 0 } ≤ 1 := by
  refine ⟨le_rfl, by norm_num, by norm_num, le_rfl, by norm_num, le_rfl, ?_⟩
  norm_num [calculateOverallRisk, jsMinOneInv]

/-- C1 (amended): for finite, non-negative sub-metric inputs whose
`priceFeedReliability`, `slippageEstimate` and `walletRisk` additionally lie
within `[0,1]` (as they do for the values `calculateRiskMetrics` produces),
the overall risk score returned by `calculateOverallRisk` lies within
`[0,1]`. -/
theorem C1_overallRisk_bounded (m : SubMetrics)
    (hv : 0 ≤ m.volatility) (hl : 0 ≤ m.liquidityDepth) (hm : 0 ≤ m.marketCap)
    (hp0 : 0 ≤ m.priceFeedReliability) (hp1 : m.priceFeedReliability ≤ 1)
    (hs0 : 0 ≤ m.slippageEstimate) (hs1 : m.slippageEstimate ≤ 1)
    (hw0 : 0 ≤ m.walletRisk) (hw1 : m.walletRisk ≤ 1) :
    0 ≤ calculateOverallRisk m ∧ calculateOverallRisk m ≤ 1 := by
  have hVol0 : (0 : ℚ) ≤ min 1 m.volatility := le_min zero_le_one hv
  have hVol1 : min 1 m.volatility ≤ 1 := min_le_left 1 m.volatility
  have hLd := jsMinOneInv_mem m.liquidityDepth hl
  have hMc := jsMinOneInv_mem (m.marketCap / 1000000) (by positivity)
  have hPf0 : (0 : ℚ) ≤ 1 - m.priceFeedReliability := by linarith
  have hPf1 : 1 - m.priceFeedReliability ≤ 1 := by linarith
  unfold calculateOverallRisk
  constructor
  · nlinarith [hLd.1, hMc.1]
  · nlinarith [hLd.2, hMc.2]

/-- C1 witness: the amended bound applied at the all-zero sub-metrics. -/
theorem C1_overallRisk_bounded_witness :
    0 ≤ calculateOverallRisk
        { volatility := 0, liquidityDepth := 0, marketCap := 0,
          priceFeedReliability := 0, slippageEstimate := 0, walletRisk := 0 } ∧
      calculateOverallRisk
        { volatility := 0, liquidityDepth := 0, marketCap := 0,
          priceFeedReliability := 0, slippageEstimate := 0, walletRisk := 0 } ≤ 1 :=
  C1_overallRisk_bounded
    { volatility := 0, liquidityDepth := 0, marketCap := 0,
      priceFeedReliability := 0, slippageEstimate := 0, walletRisk := 0 }
    le_rfl le_rfl le_rfl le_rfl zero_le_one le_rfl zero_le_one le_rfl zero_le_one

/-- C2: `checkExitConditions` evaluates the take-profit rule before the
holding-time rule: whenever the computed `currentPnL` reaches
`TAKE_PROFIT_THRESHOLD = 0.15` while the holding time also reaches
`MAX_HOLDING_TIME`, the returned `ExitSignal` has `shouldExit = true` with
the take-profit reason, not the holding-time reason. -/
theorem C2_takeProfit_before_holdingTime (amount price currentPrice : ℚ)
    (holdingTime : ℤ)
    (hTP : TAKE_PROFIT_THRESHOLD ≤
      (amount * currentPrice - amount * price) / (amount * price))
    (hHold : MAX_HOLDING_TIME ≤ holdingTime) :
    (checkExitConditions amount price currentPrice holdingTime).shouldExit = true ∧
      (checkExitConditions amount price currentPrice holdingTime).reason =
        ExitReasonKind.takeProfit := by
  unfold checkExitConditions
  rw [if_pos hTP]
  exact ⟨rfl, rfl⟩

/-- C2 witness: entry price 1, current price 1.2, amount 1, holding time
two hours (P&L 20% above the 15% threshold, holding time above the 1 hour
cap): the signal exits with the take-profit reason. -/
theorem C2_takeProfit_before_holdingTime_witness :
    (checkExitConditions 1 1 (12/10) 7200000).shouldExit = true ∧
      (checkExitConditions 1 1 (12/10) 7200000).reason = ExitReasonKind.takeProfit :=
  C2_takeProfit_before_holdingTime 1 1 (12/10) 7200000
    (by norm_num [TAKE_PROFIT_THRESHOLD]) (by norm_num [MAX_HOLDING_TIME])

/-- C3 counterexample: market data and model score (0, below the 0.67
threshold) are successfully obtained, so the claim demands `null`; but the
risk-metric step — awaited before the threshold check — fails because every
price feed is down, and `evaluateTrade` rethrows that error instead of
returning `null`, so the claimed equivalence and the "no signal, not an
error" outcome are false of the program. -/
theorem C3_counterexample :
    ¬ ((67 : ℚ)/100 ≤ 0) ∧
    evaluateTradeFull defaultConfig 0
      { price := 1, volume24h := 1, liquidityUSD := 0, priceChange24h := 0 }
      (calculateRiskMetrics
        { mint := "mintX", supply := 0, decimals := 9, isKnownScamWallet := false }
        { price := 1, volume24h := 1, liquidityUSD := 0, priceChange24h := 0 }
        none 0 (Except.error "jupiter down") (Except.error "pyth down")) =
      Except.error "All price feeds failed for mint: mintX" :=
  ⟨by norm_num, rfl⟩

/-- C3 (amended): with the default configuration (confidence threshold
0.67, minimum liquidity 10000 USD), once the market data, the model score
AND the risk metrics are successfully obtained, `evaluateTrade` returns a
`TradeSignal` exactly when the score is at least the confidence threshold
and `liquidityUSD` is at least the minimum, and returns `null` (a valid
negative outcome, not an error) exactly otherwise; but when the risk-metric
step itself fails (all price feeds down), its error propagates out of
`evaluateTrade` instead of a `null` result. -/
theorem C3_signal_iff_with_riskMetrics (score : ℚ) (md : MarketData)
    (rm : RiskMetrics) (e : String) :
    ((∃ sig, evaluateTradeFull defaultConfig score md (Except.ok rm) =
        Except.ok (some sig)) ↔
      (67/100 ≤ score ∧ 10000 ≤ md.liquidityUSD)) ∧
    ((evaluateTradeFull defaultConfig score md (Except.ok rm) = Except.ok none) ↔
      ¬ (67/100 ≤ score ∧ 10000 ≤ md.liquidityUSD)) ∧
    (evaluateTradeFull defaultConfig score md (Except.error e) = Except.error e) := by
  refine ⟨?_, ?_, rfl⟩
  · unfold evaluateTradeFull evaluateTrade defaultConfig
    split_ifs with h <;> simp [h]
  · unfold evaluateTradeFull evaluateTrade defaultConfig
    split_ifs with h <;> simp [h]

/-- C7: `calculateSharpeRatio` has no zero-volatility guard: at score 0.67
and volatility 0 the JavaScript division `(0.67 - 0.02) / 0` silently
produces `Infinity` instead of raising a fatal input error. -/
theorem C7_sharpe_zero_volatility_silently_infinite :
    calculateSharpeRatio (67/100)
      { volatility := 0, liquidityDepth := 1, marketCap := 0,
        priceFeedReliability := 0, slippageEstimate := 0, walletRisk := 0,
        overallRisk := 0 } = JsNum.posInf := by
  norm_num [calculateSharpeRatio, jsDiv, riskFreeRate]

/-- C10: for positive amount and entry price, the `currentPnL` computed by
`checkExitConditions` via `(currentValue - entryValue) / entryValue` equals
`(currentPrice - entryPrice) / entryPrice`, independently of the position
amount. -/
theorem C10_pnl_amount_independent (amount price currentPrice : ℚ)
    (holdingTime : ℤ) (hAmount : 0 < amount) (hPrice : 0 < price) :
    (checkExitConditions amount price currentPrice holdingTime).currentPnL =
      (currentPrice - price) / price := by
  have hpnl : (checkExitConditions amount price currentPrice holdingTime).currentPnL =
      (amount * currentPrice - amount * price) / (amount * price) := by
    unfold checkExitConditions
    dsimp only
    split_ifs <;> rfl
  rw [hpnl]
  have ha : amount ≠ 0 := ne_of_gt hAmount
  have hp : price ≠ 0 := ne_of_gt hPrice
  field_simp
  ring

/-- C10 witness: entry price 1.0, current price 1.2, amount 3 yield
`currentPnL = 0.2`. -/
theorem C10_pnl_amount_independent_witness :
    (checkExitConditions 3 1 (12/10) 0).currentPnL = 2/10 :=
  (C10_pnl_amount_independent 3 1 (12/10) 0 (by norm_num) (by norm_num)).trans
    (by norm_num)

/-- C4 counterexample: with an empty cache and both the Jupiter and the
Pyth provider failing, `calculateRiskMetrics` does not return a
`RiskMetrics` value — the `All price feeds failed` error of
`getPriceFeedData` propagates, so the computation is not total. -/
theorem C4_counterexample :
    calculateRiskMetrics
      { mint := "mintX", supply := 0, decimals := 9, isKnownScamWallet := false }
      { price := 0, volume24h := 0, liquidityUSD := 0, priceChange24h := 0 }
      none 0 (Except.error "jupiter down") (Except.error "pyth down") =
    Except.error "All price feeds failed for mint: mintX" := rfl

/-- C4 (amended): `calculateRiskMetrics` succeeds exactly when the
price-feed chain (`getPriceFeedData`: fresh cache entry, Jupiter, or the
Pyth fallback) yields a quote; partial provider failure only changes which
source feeds the `priceFeedReliability` sub-metric (Jupiter down and Pyth
delivering a quote gives reliability `0.95 * (confidence || 0.95)`), while
total failure makes the whole computation throw the feed error rather than
degrade the sub-metric. -/
theorem C4_riskMetrics_feed_dependence (token : TokenData) (md : MarketData)
    (cached : Option PriceFeedData) (now : ℤ) (jupiter : Except String ℚ)
    (pyth : Except String (Option PythQuote)) :
    ((calculateRiskMetrics token md cached now jupiter pyth).isOk =
      (getPriceFeedData cached now token.mint jupiter pyth).isOk) ∧
    (∀ e, getPriceFeedData cached now token.mint jupiter pyth = Except.error e →
      calculateRiskMetrics token md cached now jupiter pyth = Except.error e) ∧
    (∀ e q, cached = none → jupiter = Except.error e →
      pyth = Except.ok (some q) →
      ∃ rm, calculateRiskMetrics token md cached now jupiter pyth = Except.ok rm ∧
        rm.priceFeedReliability =
          95/100 * (if q.confidence = 0 then 95/100 else q.confidence)) := by
  refine ⟨?_, ?_, ?_⟩
  · unfold calculateRiskMetrics
    cases h : getPriceFeedData cached now token.mint jupiter pyth <;>
      simp [Except.isOk, Except.toBool]
  · intro e he
    unfold calculateRiskMetrics
    rw [he]
  · intro e q hc hj hp
    subst hc; subst hj; subst hp
    have hfeed : getPriceFeedData none now token.mint (Except.error e)
        (Except.ok (some q)) =
        Except.ok
          { price := q.price, source := Source.pyth, timestamp := now,
            confidence := if q.confidence = 0 then 95/100 else q.confidence } := rfl
    unfold calculateRiskMetrics
    rw [hfeed]
    refine ⟨_, rfl, ?_⟩
    simp [calculatePriceFeedReliability]

/-- C4 witness: empty cache, Jupiter down, Pyth delivering a quote with
`confidence_interval` 0 — the metrics are produced and the reliability
sub-metric is fed by the Pyth fallback (`0.95 * 0.95`). -/
theorem C4_riskMetrics_feed_dependence_witness :
    ∃ rm, calculateRiskMetrics
        { mint := "m", supply := 0, decimals := 9, isKnownScamWallet := false }
        { price := 1, volume24h := 1, liquidityUSD := 1, priceChange24h := 0 }
        none 0 (Except.error "jupiter down") (Except.ok (some { price := 5, confidence := 0 })) =
        Except.ok rm ∧
      rm.priceFeedReliability = 95/100 * (if (0 : ℚ) = 0 then 95/100 else 0) :=
  (C4_riskMetrics_feed_dependence
    { mint := "m", supply := 0, decimals := 9, isKnownScamWallet := false }
    { price := 1, volume24h := 1, liquidityUSD := 1, priceChange24h := 0 }
    none 0 (Except.error "jupiter down")
    (Except.ok (some { price := 5, confidence := 0 }))).2.2
    "jupiter down" { price := 5, confidence := 0 } rfl rfl rfl

/-- C5 counterexample: a batch of two open trades where evaluating the
first position fails — `checkAndExecuteExits` propagates the error and
aborts, instead of isolating the failure and continuing with the second
position, so the claimed per-position isolation is false. -/
theorem C5_counterexample :
    checkAndExecuteExits
      (Except.ok [{ id := "t1" }, { id := "t2" }])
      (fun t => if t.id = "t1" then Except.error "price feed down"
        else Except.ok { shouldExit := false, reason := ExitReasonKind.noExit, currentPnL := 0 })
      (fun _ => true) =
    Except.error "price feed down" := by
  rfl

/-- In the loop of `checkAndExecuteExits`, one position whose evaluation
fails makes the whole pass fail. -/
theorem processTrades_error_of_mem
    (evalOutcome : Trade → Except String ExitSignal)
    (execOutcome : Trade → Bool) (t : Trade)
    (hfail : (evalOutcome t).isOk = false) :
    ∀ trades, t ∈ trades →
      (processTrades evalOutcome execOutcome trades).isOk = false := by
  intro trades
  induction trades with
  | nil => intro h; cases h
  | cons hd tl ih =>
    intro ht
    unfold processTrades
    cases hhd : evalOutcome hd with
    | error e => simp [Except.isOk, Except.toBool]
    | ok sig =>
      have htl : t ∈ tl := by
        rcases List.mem_cons.mp ht with h | h
        · exfalso
          rw [h, hhd] at hfail
          simp [Except.isOk, Except.toBool] at hfail
        · exact h
      have hres := ih htl
      dsimp only
      cases hrec : processTrades evalOutcome execOutcome tl with
      | error e => simp [Except.isOk, Except.toBool]
      | ok tail =>
        rw [hrec] at hres
        simp [Except.isOk, Except.toBool] at hres

/-- In the loop of `checkAndExecuteExits`, when every per-position
evaluation succeeds the batch completes, whatever `executeExit` returns. -/
theorem processTrades_isOk_of_all
    (evalOutcome : Trade → Except String ExitSignal)
    (execOutcome : Trade → Bool) :
    ∀ trades, (∀ t ∈ trades, (evalOutcome t).isOk = true) →
      (processTrades evalOutcome execOutcome trades).isOk = true := by
  intro trades
  induction trades with
  | nil => intro _; rfl
  | cons hd tl ih =>
    intro hall
    unfold processTrades
    cases hhd : evalOutcome hd with
    | error e =>
      have hh := hall hd (List.mem_cons_self hd tl)
      rw [hhd] at hh
      simp [Except.isOk, Except.toBool] at hh
    | ok sig =>
      have htl := ih fun t ht => hall t (List.mem_cons_of_mem hd ht)
      dsimp only
      cases hrec : processTrades evalOutcome execOutcome tl with
      | error e =>
        rw [hrec] at htl
        simp [Except.isOk, Except.toBool] at htl
      | ok tail =>
        dsimp only
        by_cases hx : sig.shouldExit = true
        · rw [if_pos hx]; rfl
        · rw [if_neg hx]; rfl

/-- C5 (amended): a failure fetching the open-position list is fatal for
the whole batch (propagated), and a failure evaluating any single position
is likewise fatal — `checkExitConditions` rethrows and the loop aborts;
only the exit execution step is isolated (`executeExit` resolves `false`
on its own errors), so the batch completes whenever every per-position
evaluation succeeds, regardless of the execution outcomes. -/
theorem C5_batch_failure_semantics
    (evalOutcome : Trade → Except String ExitSignal)
    (execOutcome : Trade → Bool) :
    (∀ e, checkAndExecuteExits (Except.error e) evalOutcome execOutcome =
      Except.error e) ∧
    (∀ trades t, t ∈ trades → (evalOutcome t).isOk = false →
      (checkAndExecuteExits (Except.ok trades) evalOutcome execOutcome).isOk = false) ∧
    (∀ trades, (∀ t ∈ trades, (evalOutcome t).isOk = true) →
      (checkAndExecuteExits (Except.ok trades) evalOutcome execOutcome).isOk = true) := by
  refine ⟨fun e => rfl, ?_, ?_⟩
  · intro trades t ht hfail
    exact processTrades_error_of_mem evalOutcome execOutcome t hfail trades ht
  · intro trades hall
    exact processTrades_isOk_of_all evalOutcome execOutcome trades hall

/-- C5 witness: the amended semantics applied to a concrete batch — a
repository failure propagates; a batch whose single position evaluates
successfully completes even though its exit execution reports failure. -/
theorem C5_batch_failure_semantics_witness :
    checkAndExecuteExits (Except.error "db down")
        (fun _ => Except.ok { shouldExit := true, reason := ExitReasonKind.takeProfit, currentPnL := 2/10 })
        (fun _ => false) = Except.error "db down" ∧
      (checkAndExecuteExits (Except.ok [{ id := "t1" }])
        (fun _ => Except.ok { shouldExit := true, reason := ExitReasonKind.takeProfit, currentPnL := 2/10 })
        (fun _ => false)).isOk = true :=
  ⟨(C5_batch_failure_semantics
      (fun _ => Except.ok { shouldExit := true, reason := ExitReasonKind.takeProfit, currentPnL := 2/10 })
      (fun _ => false)).1 "db down",
   (C5_batch_failure_semantics
      (fun _ => Except.ok { shouldExit := true, reason := ExitReasonKind.takeProfit, currentPnL := 2/10 })
      (fun _ => false)).2.2 [{ id := "t1" }] (fun t _ => rfl)⟩

/-- C6 counterexample: a first provider answering with price 0 and
confidence 0 is accepted and returned by `ProviderManager.getCurrentPrice`
— no fallback to the valid second provider happens, and the quote handed to
the caller has neither a strictly positive price nor a non-zero
confidence. -/
theorem C6_counterexample :
    (getCurrentPrice
        [Except.ok (some { price := 0, source := Source.jupiter, timestamp := 0, confidence := 0 }),
         Except.ok (some { price := 5, source := Source.pyth, timestamp := 0, confidence := 9/10 })]).map
        PriceFeedData.price = some 0 ∧
    (getCurrentPrice
        [Except.ok (some { price := 0, source := Source.jupiter, timestamp := 0, confidence := 0 }),
         Except.ok (some { price := 5, source := Source.pyth, timestamp := 0, confidence := 9/10 })]).map
        PriceFeedData.confidence = some 0 :=
  ⟨rfl, rfl⟩

/-- C6 (amended): `ProviderManager.getCurrentPrice` falls back to the next
provider only on a thrown error or an absent (`undefined`) result; any
present quote is returned as is, regardless of its price sign or
confidence, so a response with confidence 0 or price ≤ 0 is treated as a
valid quote, not as a failure. -/
theorem C6_aggregator_accepts_any_present_quote (q : PriceFeedData)
    (rest : List (Except String (Option PriceFeedData))) (e : String) :
    getCurrentPrice (Except.ok (some q) :: rest) = some q ∧
    getCurrentPrice (Except.error e :: rest) = getCurrentPrice rest ∧
    getCurrentPrice (Except.ok none :: rest) = getCurrentPrice rest ∧
    getCurrentPrice [] = none :=
  ⟨rfl, rfl, rfl, rfl⟩

/-- C8: a `PriceFeedManager.getPriceData` read within the 60000 ms TTL
returns the cached quote with zero provider attempt chains; a read once the
entry's age exceeds the TTL does not return the stale value and triggers
exactly one provider attempt chain; and `TTLCache.get` invalidates an
expired entry lazily on read, deleting it from the map and returning
`undefined`. -/
theorem C8_cache_ttl_semantics (cache : String → Option PriceFeedData)
    (mint : String) (now : ℤ) (jupiter : Except String ℚ)
    (pyth : Except String PythHttpQuote) (c : PriceFeedData)
    (hc : cache mint = some c) :
    (now - c.timestamp < PRICE_CACHE_TTL →
      getPriceData cache mint now jupiter pyth = (Except.ok c, cache, 0)) ∧
    (PRICE_CACHE_TTL < now - c.timestamp →
      (getPriceData cache mint now jupiter pyth).2.2 = 1 ∧
        (getPriceData cache mint now jupiter pyth).1 ≠ Except.ok c) ∧
    (∀ (V : Type) (entries : String → Option (CacheEntry V)) (ttl n : ℤ)
      (key : String) (entry : CacheEntry V), entries key = some entry →
      ttl < n - entry.timestamp →
      TTLCache.get entries ttl n key =
        (none, fun k => if k = key then none else entries k)) := by
  refine ⟨?_, ?_, ?_⟩
  · intro hfresh
    unfold getPriceData
    rw [hc]
    dsimp only
    rw [if_pos hfresh]
  · intro hstale
    have hts : c.timestamp ≠ now := by
      intro h
      rw [h] at hstale
      simp [PRICE_CACHE_TTL] at hstale
    have hnofresh : ¬ (now - c.timestamp < PRICE_CACHE_TTL) := not_lt.mpr (le_of_lt hstale)
    unfold getPriceData
    rw [hc]
    dsimp only
    rw [if_neg hnofresh]
    cases hf : getPriceDataFetch now jupiter pyth with
    | error e =>
      refine ⟨rfl, ?_⟩
      intro h
      cases h
    | ok d =>
      have hd : d.timestamp = now := by
        unfold getPriceDataFetch at hf
        cases jupiter with
        | ok p =>
          cases hf
          rfl
        | error e =>
          cases pyth with
          | ok q =>
            cases hf
            rfl
          | error e2 => cases hf
      refine ⟨rfl, ?_⟩
      intro h
      have : d = c := by
        cases h
        rfl
      rw [this] at hd
      exact hts hd
  · intro V entries ttl n key entry he hexp
    unfold TTLCache.get
    rw [he]
    dsimp only
    rw [if_pos hexp]

/-- C8 witness: the TTL semantics applied to a concrete cache holding one
quote inserted at time 0 — read at time 59999 it is served from the cache
with no provider call; at time 60001 the Jupiter chain runs once and a
fresh quote is returned; and a `TTLCache` entry of age 61000 under a
60000 ms TTL is deleted on read. -/
theorem C8_cache_ttl_semantics_witness :
    (getPriceData
        (fun k => if k = "m" then
          some { price := 5, source := Source.jupiter, timestamp := 0, confidence := 9/10 }
          else none)
        "m" 59999 (Except.ok 7) (Except.error "pyth down") =
      (Except.ok { price := 5, source := Source.jupiter, timestamp := 0, confidence := 9/10 },
        fun k => if k = "m" then
          some { price := 5, source := Source.jupiter, timestamp := 0, confidence := 9/10 }
          else none, 0)) ∧
    ((getPriceData
        (fun k => if k = "m" then
          some { price := 5, source := Source.jupiter, timestamp := 0, confidence := 9/10 }
          else none)
        "m" 60001 (Except.ok 7) (Except.error "pyth down")).2.2 = 1 ∧
      (getPriceData
        (fun k => if k = "m" then
          some { price := 5, source := Source.jupiter, timestamp := 0, confidence := 9/10 }
          else none)
        "m" 60001 (Except.ok 7) (Except.error "pyth down")).1 ≠
        Except.ok { price := 5, source := Source.jupiter, timestamp := 0, confidence := 9/10 }) ∧
    TTLCache.get
        (fun k => if k = "m" then some ({ value := (5 : ℚ), timestamp := 0 } : CacheEntry ℚ)
          else none) 60000 61000 "m" =
      (none, fun k => if k = "m" then none
        else if k = "m" then some ({ value := (5 : ℚ), timestamp := 0 } : CacheEntry ℚ)
          else none) := by
  have h := C8_cache_ttl_semantics
    (fun k => if k = "m" then
      some { price := 5, source := Source.jupiter, timestamp := 0, confidence := 9/10 }
      else none)
    "m" 59999 (Except.ok 7) (Except.error "pyth down")
    { price := 5, source := Source.jupiter, timestamp := 0, confidence := 9/10 } rfl
  have h2 := C8_cache_ttl_semantics
    (fun k => if k = "m" then
      some { price := 5, source := Source.jupiter, timestamp := 0, confidence := 9/10 }
      else none)
    "m" 60001 (Except.ok 7) (Except.error "pyth down")
    { price := 5, source := Source.jupiter, timestamp := 0, confidence := 9/10 } rfl
  refine ⟨h.1 (by norm_num [PRICE_CACHE_TTL]), h2.2.1 (by norm_num [PRICE_CACHE_TTL]), ?_⟩
  exact h2.2.2 ℚ
    (fun k => if k = "m" then some ({ value := (5 : ℚ), timestamp := 0 } : CacheEntry ℚ)
      else none) 60000 61000 "m" { value := (5 : ℚ), timestamp := 0 } rfl (by norm_num)

/-- C9: the per-key circuit breaker state machine of `CircuitBreaker`:
with at least `failureThreshold = 5` recorded consecutive failures for a
key and the last failure more recent than `resetTimeoutMs = 60000` ms,
`execute` throws the circuit-open error without invoking the wrapped
operation and leaves the state unchanged; once the cool-down has elapsed
the breaker closes and the next `execute` invokes the operation as a
probe; and a successful operation resets the key's failure record (count
back to zero). -/
theorem C9_circuit_breaker_state_machine {α : Type} (st : CBState)
    (key : String) (now : ℤ) (op : Except String α) (f : FailureRec) :
    (st key = some f → failureThreshold ≤ f.count →
      now - f.lastFailure < resetTimeoutMs →
      CircuitBreaker.execute st key now op = (CBOutcome.circuitOpen key, st, false)) ∧
    (st key = some f → failureThreshold ≤ f.count →
      resetTimeoutMs ≤ now - f.lastFailure →
      (CircuitBreaker.execute st key now op).2.2 = true) ∧
    (∀ a, op = Except.ok a → (CircuitBreaker.execute st key now op).2.2 = true →
      ((CircuitBreaker.execute st key now op).2.1) key = none) := by
  refine ⟨?_, ?_, ?_⟩
  · intro hk hcount hrecent
    unfold CircuitBreaker.execute CircuitBreaker.isOpen
    rw [hk]
    dsimp only
    rw [if_pos hcount, if_pos hrecent]
  · intro hk hcount helapsed
    unfold CircuitBreaker.execute CircuitBreaker.isOpen
    rw [hk]
    dsimp only
    rw [if_pos hcount, if_neg (not_lt.mpr helapsed)]
    cases op <;> rfl
  · intro a hop hinv
    subst hop
    unfold CircuitBreaker.execute at hinv ⊢
    cases ho : CircuitBreaker.isOpen st key now with
    | mk b st1 =>
      cases b with
      | true =>
        rw [ho] at hinv
        simp at hinv
      | false =>
        dsimp only
        simp [CBState.reset]

/-- C9 witness: a key with 5 failures, the last at time 0 — an `execute`
at time 59999 throws circuit-open without invoking the operation and leaves
the state unchanged; at time 60000 the operation is invoked as a probe; and
a successful probe leaves no failure record for the key. -/
theorem C9_circuit_breaker_state_machine_witness :
    (CircuitBreaker.execute
        (fun k => if k = "p" then some { count := 5, lastFailure := 0 } else none)
        "p" 59999 (Except.ok (42 : ℕ)) =
      (CBOutcome.circuitOpen "p",
        fun k => if k = "p" then some { count := 5, lastFailure := 0 } else none,
        false)) ∧
    ((CircuitBreaker.execute
        (fun k => if k = "p" then some { count := 5, lastFailure := 0 } else none)
        "p" 60000 (Except.ok (42 : ℕ))).2.2 = true) ∧
    ((CircuitBreaker.execute
        (fun k => if k = "p" then some { count := 5, lastFailure := 0 } else none)
        "p" 60000 (Except.ok (42 : ℕ))).2.1) "p" = none := by
  have h1 := C9_circuit_breaker_state_machine
    (fun k => if k = "p" then some { count := 5, lastFailure := 0 } else none)
    "p" 59999 (Except.ok (42 : ℕ)) { count := 5, lastFailure := 0 }
  have h2 := C9_circuit_breaker_state_machine
    (fun k => if k = "p" then some { count := 5, lastFailure := 0 } else none)
    "p" 60000 (Except.ok (42 : ℕ)) { count := 5, lastFailure := 0 }
  refine ⟨h1.1 rfl (by norm_num [failureThreshold]) (by norm_num [resetTimeoutMs]), ?_, ?_⟩
  · exact h2.2.1 rfl (by norm_num [failureThreshold]) (by norm_num [resetTimeoutMs])
  · exact h2.2.2 42 rfl
      (h2.2.1 rfl (by norm_num [failureThreshold]) (by norm_num [resetTimeoutMs]))

end TradingBot
